import Mathlib

/-!
Verification of the Search Automation Engine of the court-data fetcher.

Strings of the Python source are modelled as `List Char`; each definition
below is a shallow embedding of the correspondingly named function of
`src/app.py`, `src/services/court_scraper.py` or
`src/services/captcha_solver.py`.
-/

namespace CourtFetcher

/-- Model of Python `str.lower` restricted to ASCII letters (the only
characters the classification keywords contain). -/
def lowerChar (c : Char) : Char :=
  if 65 ≤ c.toNat ∧ c.toNat ≤ 90 then Char.ofNat (c.toNat + 32) else c

/-- Lowercasing of a whole string (`text.lower()`). -/
def lowerStr (s : List Char) : List Char := s.map lowerChar

/-- ASCII whitespace recognised by Python `str.strip()` (space, tab,
newline, carriage return; the source only ever meets these). -/
def isSpaceChar (c : Char) : Bool :=
  (c == ' ') || (c == '\t') || (c == '\n') || (c == '\r')

/-- Model of Python `str.strip()`: drop whitespace from both ends. -/
def pyStrip (s : List Char) : List Char :=
  ((s.dropWhile isSpaceChar).reverse.dropWhile isSpaceChar).reverse

/-- `needle` occurs at the start of `hay` (helper for substring search). -/
def startsWithSub : List Char → List Char → Bool
  | _, [] => true
  | [], _ :: _ => false
  | h :: hs, n :: ns => (h == n) && startsWithSub hs ns

/-- Model of the Python `in` operator on strings: `needle` occurs
contiguously inside `hay`. -/
def containsSub : List Char → List Char → Bool
  | hay, needle =>
    if startsWithSub hay needle then true
    else
      match hay with
      | [] => false
      | _ :: t => containsSub t needle

/-- `CourtScraper._classify_order_type` (court_scraper.py:311-321):
lowercase the link text and test keywords in priority order. -/
def classify_order_type (text : List Char) : List Char :=
  let text_lower := lowerStr text
  if containsSub text_lower ("judgment".toList) || containsSub text_lower ("judgement".toList) then
    ("Judgment".toList)
  else if containsSub text_lower ("interim".toList) then
    ("Interim Order".toList)
  else if containsSub text_lower ("final".toList) then
    ("Final Order".toList)
  else
    ("Order".toList)

/-- ASCII alphanumeric character (model of Python `str.isalnum` for the
ASCII range CAPTCHA solutions live in). -/
def isAlnumChar (c : Char) : Bool :=
  (48 ≤ c.toNat && c.toNat ≤ 57) || (65 ≤ c.toNat && c.toNat ≤ 90) ||
    (97 ≤ c.toNat && c.toNat ≤ 122)

/-- Model of Python `str.isalnum`: non-empty and all characters
alphanumeric. -/
def isAlnumStr (s : List Char) : Bool := !s.isEmpty && s.all isAlnumChar

/-- `CaptchaSolver.validate_captcha_text` (captcha_solver.py:172-196).
`none` models a `None` (or non-string) argument. -/
def validate_captcha_text (text : Option (List Char)) : Bool :=
  match text with
  | none => false
  | some t =>
    if t = [] then false
    else
      let t := pyStrip t
      if t.length < 3 || 10 < t.length then false
      else if !(isAlnumStr t) then false
      else true

/-! ### Date parsing (`CourtScraper._extract_date`, court_scraper.py:276-290)

`datetime.strptime` is modelled per format directive, following CPython's
`_strptime` regular expressions: `%d` is `3[01]|[12]\d|0[1-9]|[1-9]`,
`%m` is `1[0-2]|0[1-9]|[1-9]`, `%Y` is four digits, literals match
themselves, the whole string must be consumed, and alternatives are tried
in order with backtracking. A regex match is then validated as a real
calendar date (CPython raises `ValueError` otherwise, which the source
catches and skips). -/

/-- The decimal digit character for `k < 10`. -/
def digitChar (k : Nat) : Char := Char.ofNat (48 + k)

/-- Read one decimal digit character. -/
def charToDigit (c : Char) : Option Nat :=
  if 48 ≤ c.toNat ∧ c.toNat ≤ 57 then some (c.toNat - 48) else none

/-- Two-character alternatives of the `%d` directive:
`3[01]|[12]\d|0[1-9]`. -/
def day2 (c1 c2 : Char) : Option Nat :=
  match charToDigit c1, charToDigit c2 with
  | some a, some b =>
    if (a = 3 ∧ b ≤ 1) ∨ a = 1 ∨ a = 2 ∨ (a = 0 ∧ 1 ≤ b) then some (10 * a + b) else none
  | _, _ => none

/-- The one-character alternative `[1-9]` shared by `%d` and `%m`. -/
def digit19 (c : Char) : Option Nat :=
  match charToDigit c with
  | some a => if 1 ≤ a then some a else none
  | none => none

/-- Two-character alternatives of the `%m` directive: `1[0-2]|0[1-9]`. -/
def month2 (c1 c2 : Char) : Option Nat :=
  match charToDigit c1, charToDigit c2 with
  | some a, some b =>
    if (a = 1 ∧ b ≤ 2) ∨ (a = 0 ∧ 1 ≤ b) then some (10 * a + b) else none
  | _, _ => none

/-- Ordered-alternative (backtracking) choice of the regex engine. -/
def orTry {α : Type} (a b : Option α) : Option α :=
  match a with
  | some v => some v
  | none => b

/-- `%Y` at end of input: exactly four digits and nothing after. -/
def parseY4End : List Char → Option Nat
  | [c1, c2, c3, c4] =>
    match charToDigit c1, charToDigit c2, charToDigit c3, charToDigit c4 with
    | some a, some b, some c, some d => some (1000 * a + 100 * b + 10 * c + d)
    | _, _, _, _ => none
  | _ => none

/-- A literal separator followed by `%Y` at end of input. -/
def parseSepY4End (sep : Char) : List Char → Option Nat
  | c :: rest => if c = sep then parseY4End rest else none
  | [] => none

/-- `%m sep %Y` at end of input, two-digit month preferred. -/
def parseMYEnd (sep : Char) (cs : List Char) : Option (Nat × Nat) :=
  orTry
    (match cs with
     | c1 :: c2 :: rest =>
       match month2 c1 c2 with
       | some m => (parseSepY4End sep rest).map (fun y => (m, y))
       | none => none
     | _ => none)
    (match cs with
     | c1 :: rest =>
       match digit19 c1 with
       | some m => (parseSepY4End sep rest).map (fun y => (m, y))
       | none => none
     | _ => none)

/-- A literal separator followed by `%m sep %Y` at end of input. -/
def parseSepMYEnd (sep : Char) : List Char → Option (Nat × Nat)
  | c :: rest => if c = sep then parseMYEnd sep rest else none
  | [] => none

/-- Full-string match of `%d sep %m sep %Y`, returning `(day, month, year)`;
two-digit day preferred, with backtracking. -/
def parseDMY (sep : Char) (cs : List Char) : Option (Nat × Nat × Nat) :=
  orTry
    (match cs with
     | c1 :: c2 :: rest =>
       match day2 c1 c2 with
       | some d => (parseSepMYEnd sep rest).map (fun p => (d, p.1, p.2))
       | none => none
     | _ => none)
    (match cs with
     | c1 :: rest =>
       match digit19 c1 with
       | some d => (parseSepMYEnd sep rest).map (fun p => (d, p.1, p.2))
       | none => none
     | _ => none)

/-- `%d` at end of input, two-digit form preferred. -/
def parseDEnd (cs : List Char) : Option Nat :=
  orTry
    (match cs with
     | [c1, c2] => day2 c1 c2
     | _ => none)
    (match cs with
     | [c1] => digit19 c1
     | _ => none)

/-- A literal separator followed by `%d` at end of input. -/
def parseSepDEnd (sep : Char) : List Char → Option Nat
  | c :: rest => if c = sep then parseDEnd rest else none
  | [] => none

/-- `%m sep %d` at end of input, two-digit month preferred. -/
def parseMDEnd (sep : Char) (cs : List Char) : Option (Nat × Nat) :=
  orTry
    (match cs with
     | c1 :: c2 :: rest =>
       match month2 c1 c2 with
       | some m => (parseSepDEnd sep rest).map (fun d => (m, d))
       | none => none
     | _ => none)
    (match cs with
     | c1 :: rest =>
       match digit19 c1 with
       | some m => (parseSepDEnd sep rest).map (fun d => (m, d))
       | none => none
     | _ => none)

/-- Full-string match of `%Y-%m-%d`, returning `(day, month, year)`. -/
def parseYMD (cs : List Char) : Option (Nat × Nat × Nat) :=
  match cs with
  | c1 :: c2 :: c3 :: c4 :: c5 :: rest =>
    match charToDigit c1, charToDigit c2, charToDigit c3, charToDigit c4 with
    | some a, some b, some c, some d =>
      if c5 = '-' then
        (parseMDEnd ('-') rest).map (fun p => (p.2, p.1, 1000 * a + 100 * b + 10 * c + d))
      else none
    | _, _, _, _ => none
  | _ => none

/-- Gregorian leap year, as `datetime` uses. -/
def isLeap (y : Nat) : Bool := (y % 4 == 0 && y % 100 != 0) || y % 400 == 0

/-- Days in a month, as `datetime` validates. -/
def daysInMonth (y m : Nat) : Nat :=
  if m = 2 then (if isLeap y then 29 else 28)
  else if m = 4 ∨ m = 6 ∨ m = 9 ∨ m = 11 then 30
  else 31

/-- `datetime(year, month, day)` succeeds: the validation CPython runs on
a regex match before `strptime` returns. -/
def isValidDate (y m d : Nat) : Bool :=
  decide (1 ≤ y) && decide (y ≤ 9999) && decide (1 ≤ m) && decide (m ≤ 12) &&
    decide (1 ≤ d) && decide (d ≤ daysInMonth y m)

/-- The four formats tried by `_extract_date`, in source order. -/
inductive DateFmt where
  | dmy (sep : Char)
  | ymd
deriving DecidableEq

/-- Regex phase of `datetime.strptime` for one format. -/
def strptimeMatch : DateFmt → List Char → Option (Nat × Nat × Nat)
  | .dmy sep, cs => parseDMY sep cs
  | .ymd, cs => parseYMD cs

/-- `datetime.strptime(cs, fmt)` as used by the source: regex match plus
date validation; `none` models a raised `ValueError`. -/
def strptime (f : DateFmt) (cs : List Char) : Option (Nat × Nat × Nat) :=
  match strptimeMatch f cs with
  | some (d, m, y) => if isValidDate y m d then some (d, m, y) else none
  | none => none

/-- The format list of court_scraper.py:282. -/
def dateFormats : List DateFmt := [.dmy ('-'), .dmy ('/'), .ymd, .dmy ('.')]

/-- Zero-padded two-digit rendering (`%d`, `%m` of `strftime`). -/
def pad2 (n : Nat) : List Char := [digitChar (n / 10 % 10), digitChar (n % 10)]

/-- Four-digit rendering of a year (`%Y` of `strftime`). -/
def pad4 (n : Nat) : List Char :=
  [digitChar (n / 1000 % 10), digitChar (n / 100 % 10), digitChar (n / 10 % 10),
    digitChar (n % 10)]

/-- `date_obj.strftime('%Y-%m-%d')`: the canonical rendering. -/
def strftimeYMD (y m d : Nat) : List Char :=
  pad4 y ++ ('-' :: pad2 m) ++ ('-' :: pad2 d)

/-- First format that parses wins (the `for fmt in [...]` loop). -/
def tryDateFormats : List DateFmt → List Char → Option (List Char)
  | [], _ => none
  | f :: fs, cs =>
    match strptime f cs with
    | some (d, m, y) => some (strftimeYMD y m d)
    | none => tryDateFormats fs cs

/-- `CourtScraper._extract_date` applied to the text already looked up
(`none` models `_extract_text` returning `None`; a falsy empty string is
also skipped by `if date_text:`). -/
def _extract_date (dateText : Option (List Char)) : Option (List Char) :=
  match dateText with
  | none => none
  | some cs => if cs = [] then none else tryDateFormats dateFormats cs

/-- The rendering of a calendar date in a `D sep M sep Y` format
(`DD-MM-YYYY`, `DD/MM/YYYY`, `DD.MM.YYYY`). -/
def renderDMY (sep : Char) (y m d : Nat) : List Char :=
  pad2 d ++ (sep :: pad2 m) ++ (sep :: pad4 y)

/-- The rendering of a calendar date in the `YYYY-MM-DD` format. -/
def renderYMD (y m d : Nat) : List Char := strftimeYMD y m d

/-! ### Order extraction (`CourtScraper._extract_orders`, court_scraper.py:292-309) -/

/-- One `<a>` element of the rendered page: its `href` attribute, its
visible text, and the combined link-plus-parent text that
`_extract_order_date` scans. -/
structure LinkTag where
  href : List Char
  text : List Char
  ctx : List Char

/-- An entry of the `orders` list built by `_extract_orders`: the keys
`type`, `pdf_url` and `date` of the Python dict. -/
structure OrderRec where
  type : List Char
  pdf_url : List Char
  date : Option (List Char)
deriving DecidableEq

/-- The `find_all` predicate of court_scraper.py:297:
`href and '.pdf' in href.lower()`. -/
def hasPdfHref (l : LinkTag) : Bool :=
  !l.href.isEmpty && containsSub (lowerStr l.href) (".pdf".toList)

/-- One separator accepted by the date-pattern regex class (dash, slash or dot). -/
def isDateSep (c : Char) : Bool := (c == '-') || (c == '/') || (c == '.')

/-- Greedy match of `\d{1,2}` at the head: two digits preferred, with
backtracking into the continuation. -/
def matchD12 (cs : List Char) (k : List Char → Option (List Char)) :
    Option (List Char) :=
  orTry
    (match cs with
     | c1 :: c2 :: rest =>
       if (charToDigit c1).isSome && (charToDigit c2).isSome then
         (k rest).map (fun s => c1 :: c2 :: s)
       else none
     | _ => none)
    (match cs with
     | c1 :: rest =>
       if (charToDigit c1).isSome then (k rest).map (fun s => c1 :: s)
       else none
     | _ => none)

/-- Match separator, one or two digits, separator, four digits after the
leading day group of the date pattern,
returning the matched characters. -/
def matchDateTail (cs : List Char) : Option (List Char) :=
  match cs with
  | s1 :: rest =>
    if isDateSep s1 then
      (matchD12 rest
        (fun cs2 =>
          match cs2 with
          | s2 :: c1 :: c2 :: c3 :: c4 :: _ =>
            if isDateSep s2 && (charToDigit c1).isSome && (charToDigit c2).isSome &&
                (charToDigit c3).isSome && (charToDigit c4).isSome then
              some [s2, c1, c2, c3, c4]
            else none
          | _ => none)).map (fun s => s1 :: s)
    else none
  | [] => none

/-- The `re.search` of the date pattern of court_scraper.py:334 (one or
two digits, separator, one or two digits, separator, four digits): the
substring matched at the leftmost position where a match starts. -/
def searchDatePattern : List Char → Option (List Char)
  | [] => none
  | c :: rest =>
    match matchD12 (c :: rest) matchDateTail with
    | some s => some s
    | none => searchDatePattern rest

/-- `CourtScraper._extract_order_date` (court_scraper.py:323-350): regex
search over the link-and-parent text, then the three `D sep M sep Y`
formats. -/
def _extract_order_date (ctx : List Char) : Option (List Char) :=
  match searchDatePattern ctx with
  | some date_str => tryDateFormats [.dmy ('-'), .dmy ('/'), .dmy ('.')] date_str
  | none => none

/-- Model of `urllib.parse.urljoin` for the cases the scraper meets: an
absolute URL replaces the base, a root-relative path is joined to the
base's scheme-and-host, anything else replaces the last path segment of
the base. -/
def urljoin (base url : List Char) : List Char :=
  if url.isEmpty then base
  else if containsSub url ("://".toList) then url
  else if url.headI = '/' then
    (base.take ((base.reverse.dropWhile (fun c => c != '/')).reverse.length)) ++ url.tail
  else
    (base.reverse.dropWhile (fun c => c != '/')).reverse ++ url

/-- The dict built for one link (court_scraper.py:302-306). -/
def mkOrder (base : List Char) (l : LinkTag) : OrderRec :=
  { type := classify_order_type (pyStrip l.text)
    pdf_url := urljoin base l.href
    date := _extract_order_date l.ctx }

/-- The `for link in pdf_links` loop with its accumulating `orders`
list; links whose stripped text is empty are skipped. -/
def extract_orders_loop (base : List Char) : List LinkTag → List OrderRec → List OrderRec
  | [], acc => acc
  | l :: ls, acc =>
    if (pyStrip l.text).isEmpty then extract_orders_loop base ls acc
    else extract_orders_loop base ls (acc ++ [mkOrder base l])

/-- `CourtScraper._extract_orders`: filter to PDF links, accumulate
records, return `orders[:5]`. -/
def _extract_orders (base : List Char) (links : List LinkTag) : List OrderRec :=
  (extract_orders_loop base (links.filter hasPdfHref) []).take 5

/-! ### Result parsing (`CourtScraper._parse_case_results`, court_scraper.py:222-259) -/

/-- The raw values produced by the `_extract_text` / `_extract_date` /
`_extract_orders` lookups for one rendered page (court_scraper.py:228-238);
`none` models a `None` return. -/
structure Extracted where
  cnr_number : Option (List Char)
  case_title : Option (List Char)
  petitioner : Option (List Char)
  respondent : Option (List Char)
  filing_date : Option (List Char)
  next_hearing : Option (List Char)
  status : Option (List Char)
  judge_name : Option (List Char)
  orders : List OrderRec
deriving DecidableEq

/-- The dict comprehension `{k: v for k, v in case_data.items() if v}`
on one scalar field: `None` and the falsy empty string are dropped. -/
def cleanField (v : Option (List Char)) : Option (List Char) :=
  match v with
  | some [] => none
  | x => x

/-- The cleaned `case_data` dict (scalar fields after the falsy filter;
an empty `orders` list is likewise dropped, leaving `get('orders', [])`
empty either way). -/
def cleanData (e : Extracted) : Extracted :=
  { cnr_number := cleanField e.cnr_number
    case_title := cleanField e.case_title
    petitioner := cleanField e.petitioner
    respondent := cleanField e.respondent
    filing_date := cleanField e.filing_date
    next_hearing := cleanField e.next_hearing
    status := cleanField e.status
    judge_name := cleanField e.judge_name
    orders := e.orders }

/-- The outcome dict returned by the scraper: the `status` key with its
accompanying data or message. -/
inductive Outcome where
  | success (data : Extracted)
  | not_found (msg : List Char)
  | error (msg : List Char)
deriving DecidableEq

/-- `CourtScraper._parse_case_results` after extraction: clean the dict,
then classify a record missing both title and petitioner as not-found
(court_scraper.py:240-252). -/
def _parse_case_results (e : Extracted) : Outcome :=
  let case_data := cleanData e
  if case_data.case_title = none ∧ case_data.petitioner = none then
    .not_found ("Case not found or no data available".toList)
  else
    .success case_data

/-! ### CAPTCHA solving (`src/services/captcha_solver.py`) -/

/-- One response of the provider's `res.php` poll endpoint, or a network
failure of the poll request itself. -/
inductive PollResp where
  | solved (s : List Char)
  | notReady
  | otherError (t : List Char)
  | netError

/-- `self.timeout = 120` (captcha_solver.py:22). -/
def captchaTimeout : Nat := 120

/-- `CaptchaSolver._get_2captcha_result` (captcha_solver.py:83-115): the
`while time.time() - start_time < self.timeout` loop. `resp k` is the
k-th poll response; `elapsed` is the wall-clock seconds consumed so far,
advanced by the 5-second sleep of each retried iteration. Returns the
outcome (`Except.error` models a raised exception) paired with the number
of poll requests issued. -/
def _get_2captcha_result (resp : Nat → PollResp) (n elapsed : Nat) :
    (Except (List Char) (List Char)) × Nat :=
  if h : elapsed < captchaTimeout then
    match resp n with
    | .solved s => (Except.ok s, 1)
    | .otherError t => (Except.error (("2captcha error: ".toList) ++ t), 1)
    | .notReady =>
      let r := _get_2captcha_result resp (n + 1) (elapsed + 5)
      (r.1, r.2 + 1)
    | .netError =>
      let r := _get_2captcha_result resp (n + 1) (elapsed + 5)
      (r.1, r.2 + 1)
  else (Except.error ("Timeout waiting for CAPTCHA solution".toList), 0)
termination_by captchaTimeout - elapsed
decreasing_by
  all_goals simp [captchaTimeout] at h ⊢ <;> omega

/-- What the provider interaction of `_solve_with_2captcha` comes to:
either a solution string, a terminal error (bad submission, terminal poll
error, or poll timeout — all raised exceptions), or the poll timing out. -/
inductive ProviderOutcome where
  | solved (s : List Char)
  | terminalError (t : List Char)
  | pollTimeout
deriving DecidableEq

/-- `CaptchaSolver._fallback_solve` (captcha_solver.py:117-132):
`_simple_ocr_solve` is a stub returning `None`, and every failure path
also returns `None`. -/
def _fallback_solve : Option (List Char) := none

/-- `CaptchaSolver.solve_captcha` (captcha_solver.py:25-43): without an
API key go straight to the fallback; otherwise any exception raised by
the provider strategy is caught and the fallback used. -/
def solve_captcha (apiKeyPresent : Bool) (provider : ProviderOutcome) : Option (List Char) :=
  if !apiKeyPresent then _fallback_solve
  else
    match provider with
    | .solved s => some s
    | .terminalError _ => _fallback_solve
    | .pollTimeout => _fallback_solve

/-! ### Navigation (`CourtScraper._search_ecourts_district`, court_scraper.py:83-196) -/

/-- How a portal step can fail: a `TimeoutException` from a bounded wait,
or any other exception (element absent, driver fault, ...). -/
inductive FailKind where
  | timeoutExc
  | otherExc (msg : List Char)
deriving DecidableEq

/-- The environment of one `_solve_captcha` call (court_scraper.py:198-220):
whether the CAPTCHA image element is found, whether an API key is
configured, what the provider does, and whether the input field is found. -/
structure CaptchaEnv where
  findImageOk : Bool
  apiKeyPresent : Bool
  provider : ProviderOutcome
  findInputOk : Bool

/-- `CourtScraper._solve_captcha`: returns whether the step succeeded and
the text actually typed into the `captcha_code` field. Any exception is
caught and turned into `False`; a falsy (empty or `None`) solution is
reported as failure without typing. -/
def _solve_captcha (cenv : CaptchaEnv) : Bool × Option (List Char) :=
  if !cenv.findImageOk then (false, none)
  else
    match solve_captcha cenv.apiKeyPresent cenv.provider with
    | some t =>
      if t = [] then (false, none)
      else if cenv.findInputOk then (true, some t)
      else (false, none)
    | none => (false, none)

/-- The environment one `_search_ecourts_district` call runs against:
whether the driver initialises, whether (and how) a pre-CAPTCHA
navigation step fails, the CAPTCHA environment, whether the submit step
fails, and how the landing page classifies. -/
structure NavEnv where
  getDriverOk : Bool
  preFail : Option FailKind
  captcha : CaptchaEnv
  submitFail : Option FailKind
  resultsTable : Bool
  noRecordPhrase : Bool
  extracted : Extracted

/-- Observable events of one search session: whether a driver was
created, what was typed into the CAPTCHA field, whether the `Go` button
was clicked, and whether `driver.quit()` ran. -/
structure NavTrace where
  driverCreated : Bool
  typedCaptcha : Option (List Char)
  submitted : Bool
  quitCalled : Bool
deriving DecidableEq

/-- `'Timeout while searching case. Court website may be slow.'`. -/
def timeoutMsg : List Char :=
  ("Timeout while searching case. Court website may be slow.".toList)

/-- The `try` body of `_search_ecourts_district` after the driver exists,
with its two `except` handlers folded in: outcome, typed CAPTCHA text,
and whether the form was submitted. -/
def navBody (env : NavEnv) : Outcome × Option (List Char) × Bool :=
  match env.preFail with
  | some .timeoutExc => (.error timeoutMsg, none, false)
  | some (.otherExc m) => (.error (("Error searching case: ".toList) ++ m), none, false)
  | none =>
    match _solve_captcha env.captcha with
    | (false, ty) => (.error ("Failed to solve CAPTCHA".toList), ty, false)
    | (true, ty) =>
      match env.submitFail with
      | some .timeoutExc => (.error timeoutMsg, ty, false)
      | some (.otherExc m) => (.error (("Error searching case: ".toList) ++ m), ty, false)
      | none =>
        if env.resultsTable then (_parse_case_results env.extracted, ty, true)
        else if env.noRecordPhrase then
          (.not_found ("No case found with the provided details".toList), ty, true)
        else (.error ("Unexpected response from court website".toList), ty, true)

/-- `CourtScraper._search_ecourts_district`: initialise the driver (its
failure propagates to the generic handler with no driver to release),
run the body, and run the `finally` block, which quits the driver exactly
when one was created. -/
def _search_ecourts_district (env : NavEnv) : Outcome × NavTrace :=
  if !env.getDriverOk then
    (.error (("Error searching case: ".toList) ++ ("driver init failed".toList)),
      { driverCreated := false, typedCaptcha := none, submitted := false, quitCalled := false })
  else
    match navBody env with
    | (o, ty, sub) =>
      (o, { driverCreated := true, typedCaptcha := ty, submitted := sub, quitCalled := true })

/-- `CourtScraper.search_case` (court_scraper.py:58-81): delegates to the
district search; its own handler only catches exceptions the inner
function already converts, so the value passes through. -/
def search_case (env : NavEnv) : Outcome × NavTrace :=
  _search_ecourts_district env

/-! ### Request validation (`api_search`, app.py:82-195) -/

/-- The four form fields as received, before trimming. -/
structure RawRequest where
  court : List Char
  case_type : List Char
  case_number : List Char
  filing_year : List Char

/-- Digits of an ASCII numeral, most significant first. -/
def digitsToNat : List Char → Option Nat
  | [] => none
  | cs =>
    cs.foldl
      (fun acc c =>
        match acc, charToDigit c with
        | some n, some k => some (10 * n + k)
        | _, _ => none)
      (some 0)

/-- Model of Python `int(s)` on an already-stripped string: an optional
sign followed by at least one digit; anything else raises `ValueError`
(modelled as `none`). -/
def pyInt : List Char → Option Int
  | '-' :: rest => (digitsToNat rest).map (fun n => -(n : Int))
  | '+' :: rest => (digitsToNat rest).map (fun n => (n : Int))
  | s => (digitsToNat s).map (fun n => (n : Int))

/-- The JSON response of the `/api/search` endpoint: a 400 validation
rejection, or the scraper's outcome passed through. -/
inductive ApiOutcome where
  | validationError (msg : List Char)
  | searchResult (o : Outcome)
deriving DecidableEq

/-- HTTP status the endpoint pairs with a scraper outcome. -/
def statusOf : Outcome → Nat
  | .success _ => 200
  | _ => 404

/-- The observable result of one `/api/search` call: the response, its
HTTP status, and the scraper invocation (`none` when `search_case` was
never called, hence no browser session was acquired and no portal step
ran). -/
structure ApiResult where
  outcome : ApiOutcome
  httpStatus : Nat
  nav : Option (Outcome × NavTrace)

/-- `api_search` (app.py:82-195): trim the four fields, reject if any is
empty, parse and range-check the filing year against the current year,
and only then invoke the scraper. -/
def api_search (req : RawRequest) (currentYear : Int) (env : NavEnv) : ApiResult :=
  let court_name := pyStrip req.court
  let case_type := pyStrip req.case_type
  let case_number := pyStrip req.case_number
  let filing_year := pyStrip req.filing_year
  if court_name = [] ∨ case_type = [] ∨ case_number = [] ∨ filing_year = [] then
    { outcome := .validationError ("All fields are required".toList), httpStatus := 400,
      nav := none }
  else
    match pyInt filing_year with
    | none =>
      { outcome := .validationError ("Invalid filing year".toList), httpStatus := 400,
        nav := none }
    | some y =>
      if y < 1950 ∨ currentYear < y then
        { outcome := .validationError ("Invalid filing year".toList), httpStatus := 400,
          nav := none }
      else
        let r := search_case env
        { outcome := .searchResult r.1, httpStatus := statusOf r.1, nav := some r }

/-! ### Concrete fixtures used by witnesses and counterexamples -/

/-- A page extraction with a status but neither title nor petitioner. -/
def sampleExtracted : Extracted :=
  { cnr_number := none, case_title := none, petitioner := none, respondent := none,
    filing_date := some ("2022-03-15".toList), next_hearing := none,
    status := some ("Pending".toList), judge_name := none, orders := [] }

/-- Provider rejects the credentials terminally. -/
def cenvWrongKey : CaptchaEnv :=
  { findImageOk := true, apiKeyPresent := true,
    provider := .terminalError ("ERROR_WRONG_USER_KEY".toList), findInputOk := true }

/-- A full session whose CAPTCHA resolution fails on bad credentials. -/
def envWrongKey : NavEnv :=
  { getDriverOk := true, preFail := none, captcha := cenvWrongKey, submitFail := none,
    resultsTable := true, noRecordPhrase := false, extracted := sampleExtracted }

/-- Provider returns a solution that fails the format validation helper. -/
def cenvInvalidText : CaptchaEnv :=
  { findImageOk := true, apiKeyPresent := true, provider := .solved ("a!".toList),
    findInputOk := true }

/-- A full session in which the invalid solution gets typed and submitted. -/
def envInvalidText : NavEnv :=
  { getDriverOk := true, preFail := none, captcha := cenvInvalidText, submitFail := none,
    resultsTable := true, noRecordPhrase := false, extracted := sampleExtracted }

/-- Provider returns a well-formed solution. -/
def cenvSolved : CaptchaEnv :=
  { findImageOk := true, apiKeyPresent := true, provider := .solved ("ab12".toList),
    findInputOk := true }

/-- A session that runs to the no-record page. -/
def envNoRecord : NavEnv :=
  { getDriverOk := true, preFail := none, captcha := cenvSolved, submitFail := none,
    resultsTable := false, noRecordPhrase := true, extracted := sampleExtracted }

/-- A request whose filing year is below 1950. -/
def reqInvalidYear : RawRequest :=
  { court := ("delhi_district".toList), case_type := ("civil".toList),
    case_number := ("123".toList), filing_year := (" 1900 ".toList) }

/-- The poll-response stream that is never ready. -/
def constNotReady : Nat → PollResp := fun _ => .notReady

/-- A small document: six PDF links (one with empty text) and one
non-PDF link. -/
def sampleLinks : List LinkTag :=
  [ { href := ("orders/a1.pdf".toList), text := ("Judgment".toList), ctx := [] },
    { href := ("notes.txt".toList), text := ("notes".toList), ctx := [] },
    { href := ("orders/a2.pdf".toList), text := [], ctx := [] },
    { href := ("orders/a3.pdf".toList), text := ("Interim Order".toList), ctx := [] },
    { href := ("orders/a4.pdf".toList), text := ("Final Order".toList), ctx := [] },
    { href := ("orders/a5.pdf".toList), text := ("Order 1".toList), ctx := [] },
    { href := ("orders/a6.pdf".toList), text := ("Order 2".toList), ctx := [] } ]

/-- The default portal base URL. -/
def sampleBase : List Char := ("https://services.ecourts.gov.in/ecourtindia_v6/".toList)

/-! ## Helper lemmas -/

/-- The accumulating order loop appends exactly the records of the
non-empty-text links, in document order. -/
lemma extract_orders_loop_eq (base : List Char) (ls : List LinkTag) (acc : List OrderRec) :
    extract_orders_loop base ls acc =
      acc ++ (ls.filter (fun l => !(pyStrip l.text).isEmpty)).map (mkOrder base) := by
  induction ls generalizing acc with
  | nil => simp [extract_orders_loop]
  | cons l ls ih =>
    by_cases h : (pyStrip l.text).isEmpty
    · simp [extract_orders_loop, h, ih]
    · simp [extract_orders_loop, h, ih]

/-! ## Claims -/

/-- Claim C5: for every rendered result page, if the extracted record has
neither `case_title` nor `petitioner` populated, the extractor classifies
the result as not-found rather than success, even when other fields such
as status or dates are present. -/
theorem claim_C5 (e : Extracted)
    (ht : cleanField e.case_title = none) (hp : cleanField e.petitioner = none) :
    _parse_case_results e = .not_found ("Case not found or no data available".toList) := by
  simp [_parse_case_results, cleanData, ht, hp]

/-- Witness for C5: a record with a status and a filing date but no title
and no petitioner is classified not-found. -/
theorem claim_C5_witness :
    cleanField sampleExtracted.case_title = none ∧
      cleanField sampleExtracted.petitioner = none ∧
      sampleExtracted.status = some ("Pending".toList) ∧
      _parse_case_results sampleExtracted =
        .not_found ("Case not found or no data available".toList) :=
  ⟨by decide, by decide, by decide, claim_C5 sampleExtracted (by decide) (by decide)⟩

/-- Claim C6: order extraction returns at most 5 records, and the result
is exactly the first 5 qualifying links (PDF href, non-empty stripped
text) in document order. -/
theorem claim_C6 (base : List Char) (links : List LinkTag) :
    (_extract_orders base links).length ≤ 5 ∧
      _extract_orders base links =
        (((links.filter hasPdfHref).filter
            (fun l => !(pyStrip l.text).isEmpty)).map (mkOrder base)).take 5 := by
  constructor
  · simp [_extract_orders, List.length_take]
  · simp [_extract_orders, extract_orders_loop_eq]

/-- Claim C10: every record produced by order extraction stems from a
document link with a PDF href and non-empty stripped visible text, and
its `pdf_url` is (always present and) the join of that link's href
against the configured base URL. -/
theorem claim_C10 (base : List Char) (links : List LinkTag) (o : OrderRec)
    (ho : o ∈ _extract_orders base links) :
    ∃ l, l ∈ links ∧ hasPdfHref l = true ∧ pyStrip l.text ≠ [] ∧
      o = mkOrder base l ∧ o.pdf_url = urljoin base l.href := by
  rw [_extract_orders, extract_orders_loop_eq] at ho
  simp only [List.nil_append] at ho
  have ho2 := List.mem_of_mem_take ho
  obtain ⟨l, hl, rfl⟩ := List.mem_map.mp ho2
  obtain ⟨hl2, hne⟩ := List.mem_filter.mp hl
  obtain ⟨hl3, hpdf⟩ := List.mem_filter.mp hl2
  refine ⟨l, hl3, hpdf, ?_, rfl, rfl⟩
  simpa [List.isEmpty_iff] using hne

/-- Witness for C10: the first record extracted from the sample document
is traced back to its link. -/
theorem claim_C10_witness :
    (mkOrder sampleBase
        { href := ("orders/a1.pdf".toList), text := ("Judgment".toList), ctx := [] }) ∈
        _extract_orders sampleBase sampleLinks ∧
      ∃ l, l ∈ sampleLinks ∧ hasPdfHref l = true ∧ pyStrip l.text ≠ [] ∧
        (mkOrder sampleBase
            { href := ("orders/a1.pdf".toList), text := ("Judgment".toList), ctx := [] }) =
          mkOrder sampleBase l ∧
        (mkOrder sampleBase
            { href := ("orders/a1.pdf".toList), text := ("Judgment".toList), ctx := [] }).pdf_url =
          urljoin sampleBase l.href :=
  ⟨by decide, claim_C10 sampleBase sampleLinks _ (by decide)⟩

/-- Counterexample to C7 as stated: the text `"judgement"` contains none
of `"judgment"`, `"interim"`, `"final"`, yet is classified `Judgment`,
not `Order` (the code also matches the alternate spelling). -/
theorem claim_C7_counterexample :
    containsSub (lowerStr ("judgement".toList)) ("judgment".toList) = false ∧
      containsSub (lowerStr ("judgement".toList)) ("interim".toList) = false ∧
      containsSub (lowerStr ("judgement".toList)) ("final".toList) = false ∧
      classify_order_type ("judgement".toList) = ("Judgment".toList) ∧
      ("Judgment".toList : List Char) ≠ ("Order".toList) := by
  decide

/-- Claim C7 (amended): classification lowercases the text and tests, in
priority order, "judgment" or "judgement" → Judgment, then "interim" →
Interim Order, then "final" → Final Order, anything else → Order. -/
theorem claim_C7 (text : List Char) :
    ((containsSub (lowerStr text) ("judgment".toList) = true ∨
        containsSub (lowerStr text) ("judgement".toList) = true) →
      classify_order_type text = ("Judgment".toList)) ∧
    (containsSub (lowerStr text) ("judgment".toList) = false →
      containsSub (lowerStr text) ("judgement".toList) = false →
      containsSub (lowerStr text) ("interim".toList) = true →
      classify_order_type text = ("Interim Order".toList)) ∧
    (containsSub (lowerStr text) ("judgment".toList) = false →
      containsSub (lowerStr text) ("judgement".toList) = false →
      containsSub (lowerStr text) ("interim".toList) = false →
      containsSub (lowerStr text) ("final".toList) = true →
      classify_order_type text = ("Final Order".toList)) ∧
    (containsSub (lowerStr text) ("judgment".toList) = false →
      containsSub (lowerStr text) ("judgement".toList) = false →
      containsSub (lowerStr text) ("interim".toList) = false →
      containsSub (lowerStr text) ("final".toList) = false →
      classify_order_type text = ("Order".toList)) := by
  refine ⟨?_, ?_, ?_, ?_⟩
  · rintro (h | h) <;> simp only [classify_order_type] <;> rw [h] <;> simp
  · intro h1 h2 h3
    simp only [classify_order_type]
    rw [h1, h2, h3]
    simp
  · intro h1 h2 h3 h4
    simp only [classify_order_type]
    rw [h1, h2, h3, h4]
    simp
  · intro h1 h2 h3 h4
    simp only [classify_order_type]
    rw [h1, h2, h3, h4]
    simp

/-- Witness for C7: uppercase "INTERIM ORDER dated" is classified as an
interim order. -/
theorem claim_C7_witness :
    containsSub (lowerStr ("INTERIM ORDER dated 01-01-2020".toList)) ("interim".toList) = true ∧
      classify_order_type ("INTERIM ORDER dated 01-01-2020".toList) = ("Interim Order".toList) :=
  ⟨by decide,
    (claim_C7 ("INTERIM ORDER dated 01-01-2020".toList)).2.1 (by decide) (by decide) (by decide)⟩

/-- Counterexample to C8 as stated: the candidate solution `"a!"` fails
`validate_captcha_text`, yet the scraper types it into the form field and
submits — no validation happens before use. -/
theorem claim_C8_counterexample :
    validate_captcha_text (some ("a!".toList)) = false ∧
      (search_case envInvalidText).2.typedCaptcha = some ("a!".toList) ∧
      (search_case envInvalidText).2.submitted = true := by
  decide

/-- Claim C8 (amended): the validation helper accepts exactly the strings
whose stripped form is 3–10 alphanumeric characters; but the scraper
never invokes it — any non-empty solver result is typed into the form
field unvalidated. -/
theorem claim_C8 :
    (∀ t : List Char,
      validate_captcha_text (some t) = true ↔
        (3 ≤ (pyStrip t).length ∧ (pyStrip t).length ≤ 10 ∧
          (pyStrip t).all isAlnumChar = true)) ∧
    (∀ cenv : CaptchaEnv, ∀ t : List Char,
      solve_captcha cenv.apiKeyPresent cenv.provider = some t → t ≠ [] →
      cenv.findImageOk = true → cenv.findInputOk = true →
      (_solve_captcha cenv).2 = some t ∧ (_solve_captcha cenv).1 = true) := by
  constructor
  · intro t
    by_cases ht : t = []
    · subst ht
      simp [validate_captcha_text, pyStrip]
    · have hne : ¬(pyStrip t).length < 3 → (pyStrip t) ≠ [] := by
        intro h hcon
        simp [hcon] at h
      simp only [validate_captcha_text, if_neg ht]
      split_ifs with h1 h2
      · constructor
        · intro hfalse
          exact absurd hfalse (by simp)
        · intro ⟨ha, hb, _⟩
          simp at h1
          omega
      · constructor
        · intro hfalse
          exact absurd hfalse (by simp)
        · intro ⟨ha, hb, hc⟩
          simp [isAlnumStr, hc, List.isEmpty_iff, hne (by omega)] at h2
      · simp at h1 h2
        simp [isAlnumStr] at h2
        refine ⟨fun _ => ⟨by omega, by omega, ?_⟩, fun _ => rfl⟩
        exact List.all_eq_true.mpr h2.2
  · intro cenv t hsolve hne himg hinput
    simp [_solve_captcha, himg, hsolve, hne, hinput]

/-- Witness for C8: `"ab12"` passes the helper, and a session whose
provider solves to `"ab12"` types exactly that text. -/
theorem claim_C8_witness :
    validate_captcha_text (some ("ab12".toList)) = true ∧
      solve_captcha cenvSolved.apiKeyPresent cenvSolved.provider = some ("ab12".toList) ∧
      (_solve_captcha cenvSolved).2 = some ("ab12".toList) :=
  ⟨(claim_C8.1 ("ab12".toList)).mpr ⟨by decide, by decide, by decide⟩, by decide,
    (claim_C8.2 cenvSolved ("ab12".toList) (by decide) (by decide) (by decide) (by decide)).1⟩

/-- Claim C2: on every execution of the search session, if a browser
session (driver) was created it is released (`driver.quit()` runs in the
`finally` block) before the search returns, on success, not-found,
timeout, or any exception path. -/
theorem claim_C2 (env : NavEnv)
    (h : (search_case env).2.driverCreated = true) :
    (search_case env).2.quitCalled = true := by
  by_cases hd : env.getDriverOk
  · rcases hnav : navBody env with ⟨o, ty, sub⟩
    simp [search_case, _search_ecourts_district, hd, hnav]
  · simp [search_case, _search_ecourts_district, hd] at h

/-- Witness for C2: a session reaching the no-record page creates a
driver and releases it. -/
theorem claim_C2_witness :
    (search_case envNoRecord).2.driverCreated = true ∧
      (search_case envNoRecord).2.quitCalled = true :=
  ⟨by decide, claim_C2 envNoRecord (by decide)⟩

/-- Claim C9: when CAPTCHA resolution yields no usable solution
(including a terminal provider error such as a wrong user key), the
search returns an error outcome and the submit click is never reached. -/
theorem claim_C9 (env : NavEnv)
    (hd : env.getDriverOk = true) (hp : env.preFail = none)
    (hc : (_solve_captcha env.captcha).1 = false) :
    (search_case env).1 = .error ("Failed to solve CAPTCHA".toList) ∧
      (search_case env).2.submitted = false := by
  rcases hcap : _solve_captcha env.captcha with ⟨ok, ty⟩
  rw [hcap] at hc
  subst hc
  constructor <;>
    simp [search_case, _search_ecourts_district, navBody, hd, hp, hcap]

/-- Witness for C9: the provider reports `ERROR_WRONG_USER_KEY`; the
outcome is the CAPTCHA error and the form is never submitted. -/
theorem claim_C9_witness :
    envWrongKey.getDriverOk = true ∧ envWrongKey.preFail = none ∧
      (_solve_captcha envWrongKey.captcha).1 = false ∧
      (search_case envWrongKey).1 = .error ("Failed to solve CAPTCHA".toList) ∧
      (search_case envWrongKey).2.submitted = false := by
  refine ⟨by decide, by decide, by decide, ?_⟩
  have h := claim_C9 envWrongKey (by decide) (by decide) (by decide)
  exact h

/-- Claim C1: a request with a filing year outside [1950, current_year]
or any required field empty after trimming is rejected with a validation
error before the scraper is invoked: no browser session is acquired and
no portal step runs (`nav = none`). -/
theorem claim_C1 (req : RawRequest) (cy : Int) (env : NavEnv)
    (h : pyStrip req.court = [] ∨ pyStrip req.case_type = [] ∨
      pyStrip req.case_number = [] ∨ pyStrip req.filing_year = [] ∨
      (∃ y, pyInt (pyStrip req.filing_year) = some y ∧ (y < 1950 ∨ cy < y))) :
    (∃ m, (api_search req cy env).outcome = .validationError m) ∧
      (api_search req cy env).nav = none := by
  by_cases he : pyStrip req.court = [] ∨ pyStrip req.case_type = [] ∨
      pyStrip req.case_number = [] ∨ pyStrip req.filing_year = []
  · simp only [api_search, if_pos he]
    exact ⟨⟨_, rfl⟩, trivial⟩
  · rcases h with h | h | h | h | ⟨y, hy, hrange⟩
    · exact absurd (Or.inl h) he
    · exact absurd (Or.inr (Or.inl h)) he
    · exact absurd (Or.inr (Or.inr (Or.inl h))) he
    · exact absurd (Or.inr (Or.inr (Or.inr h))) he
    · have hr : (y < 1950 ∨ cy < y) := hrange
      simp only [api_search, if_neg he, hy, if_pos hr]
      exact ⟨⟨_, rfl⟩, trivial⟩

/-- Witness for C1: a complete request whose filing year is 1900 is
rejected without any scraper invocation. -/
theorem claim_C1_witness :
    (pyInt (pyStrip reqInvalidYear.filing_year) = some 1900 ∧ (1900 : Int) < 1950) ∧
      (∃ m, (api_search reqInvalidYear 2025 envNoRecord).outcome = .validationError m) ∧
      (api_search reqInvalidYear 2025 envNoRecord).nav = none :=
  ⟨⟨by decide, by decide⟩,
    claim_C1 reqInvalidYear 2025 envNoRecord
      (Or.inr (Or.inr (Or.inr (Or.inr ⟨1900, by decide, Or.inl (by decide)⟩))))⟩

/-- Bound on poll requests: each retried iteration advances the clock by
the 5-second sleep, so from `elapsed` at most `⌈(120 - elapsed) / 5⌉`
polls are issued. -/
lemma poll_count_le (k : Nat) :
    ∀ (resp : Nat → PollResp) (n elapsed : Nat), captchaTimeout - elapsed ≤ k →
      (_get_2captcha_result resp n elapsed).2 ≤ (captchaTimeout - elapsed + 4) / 5 := by
  induction k with
  | zero =>
    intro resp n elapsed hk
    rw [_get_2captcha_result]
    have : ¬ elapsed < captchaTimeout := by omega
    simp [this]
  | succ k ih =>
    intro resp n elapsed hk
    rw [_get_2captcha_result]
    by_cases h : elapsed < captchaTimeout
    · simp only [dif_pos h]
      cases hr : resp n with
      | solved s => simp [captchaTimeout] at h ⊢; omega
      | otherError t => simp [captchaTimeout] at h ⊢; omega
      | notReady =>
        simp only []
        have hb := ih resp (n + 1) (elapsed + 5) (by omega)
        simp [captchaTimeout] at h hb ⊢
        omega
      | netError =>
        simp only []
        have hb := ih resp (n + 1) (elapsed + 5) (by omega)
        simp [captchaTimeout] at h hb ⊢
        omega
    · simp [h]

/-- If every poll response is retryable (not-ready or a network error),
the loop ends in the timeout exception. -/
lemma poll_timeout_of_retryable (k : Nat) :
    ∀ (resp : Nat → PollResp) (n elapsed : Nat), captchaTimeout - elapsed ≤ k →
      (∀ j, resp j = PollResp.notReady ∨ resp j = PollResp.netError) →
      (_get_2captcha_result resp n elapsed).1 =
        Except.error ("Timeout waiting for CAPTCHA solution".toList) := by
  induction k with
  | zero =>
    intro resp n elapsed hk hall
    rw [_get_2captcha_result]
    have : ¬ elapsed < captchaTimeout := by omega
    simp [this]
  | succ k ih =>
    intro resp n elapsed hk hall
    rw [_get_2captcha_result]
    by_cases h : elapsed < captchaTimeout
    · simp only [dif_pos h]
      rcases hall n with hr | hr <;> rw [hr] <;>
        simpa using ih resp (n + 1) (elapsed + 5)
          (by simp [captchaTimeout] at h hk ⊢; omega) hall
    · simp [h]

/-- Claim C3: the CAPTCHA result-polling loop issues at most 24 polls
(so it terminates within the 120-second budget of 5-second retry steps)
for every sequence of responses, and when every poll is retryable — all
"CAPCHA_NOT_READY" or all network failures — it ends in the timeout
error rather than hanging. -/
theorem claim_C3 (resp : Nat → PollResp) :
    (_get_2captcha_result resp 0 0).2 ≤ 24 ∧
      ((∀ j, resp j = PollResp.notReady ∨ resp j = PollResp.netError) →
        (_get_2captcha_result resp 0 0).1 =
          Except.error ("Timeout waiting for CAPTCHA solution".toList)) := by
  constructor
  · have h := poll_count_le captchaTimeout resp 0 0 (by omega)
    simpa [captchaTimeout] using h
  · intro hall
    exact poll_timeout_of_retryable captchaTimeout resp 0 0 (by omega) hall

/-- Witness for C3: the stream that always answers not-ready makes the
loop end in the timeout error. -/
theorem claim_C3_witness :
    (∀ j, constNotReady j = PollResp.notReady ∨ constNotReady j = PollResp.netError) ∧
      (_get_2captcha_result constNotReady 0 0).1 =
        Except.error ("Timeout waiting for CAPTCHA solution".toList) :=
  ⟨fun _ => Or.inl rfl, (claim_C3 constNotReady).2 (fun _ => Or.inl rfl)⟩

/-! ### Helper lemmas for the date round-trip (claim C4) -/

/-- Reading back a digit character. -/
lemma charToDigit_digitChar : ∀ k, k < 10 → charToDigit (digitChar k) = some k := by
  decide

/-- Digit characters are not the dash separator. -/
lemma digitChar_ne_dash : ∀ k, k < 10 → digitChar k ≠ ('-' : Char) := by
  decide

/-- Digit characters are not the slash separator. -/
lemma digitChar_ne_slash : ∀ k, k < 10 → digitChar k ≠ ('/' : Char) := by
  decide

/-- The `%d` two-digit alternatives accept the zero-padded rendering of
every day 1–31. -/
lemma day2_pad : ∀ d, d < 32 → 1 ≤ d →
    day2 (digitChar (d / 10 % 10)) (digitChar (d % 10)) = some d := by
  decide

/-- The `%m` two-digit alternatives accept the zero-padded rendering of
every month 1–12. -/
lemma month2_pad : ∀ m, m < 13 → 1 ≤ m →
    month2 (digitChar (m / 10 % 10)) (digitChar (m % 10)) = some m := by
  decide

/-- `[1-9]` on a digit character. -/
lemma digit19_digitChar : ∀ k, k < 10 →
    digit19 (digitChar k) = if 1 ≤ k then some k else none := by
  decide

/-- `%Y` reads back the zero-padded four-digit year. -/
lemma parseY4End_pad4 (y : Nat) (hy : y ≤ 9999) : parseY4End (pad4 y) = some y := by
  have h1 := charToDigit_digitChar (y / 1000 % 10) (Nat.mod_lt _ (by norm_num))
  have h2 := charToDigit_digitChar (y / 100 % 10) (Nat.mod_lt _ (by norm_num))
  have h3 := charToDigit_digitChar (y / 10 % 10) (Nat.mod_lt _ (by norm_num))
  have h4 := charToDigit_digitChar (y % 10) (Nat.mod_lt _ (by norm_num))
  simp [pad4, parseY4End, h1, h2, h3, h4]
  omega

/-- `%d sep %m sep %Y` accepts the rendering made with the same
separator and returns exactly the rendered date. -/
lemma parseDMY_render (sep : Char) (y m d : Nat) (hy : y ≤ 9999)
    (hm1 : 1 ≤ m) (hm : m ≤ 12) (hd1 : 1 ≤ d) (hd : d ≤ 31) :
    parseDMY sep (renderDMY sep y m d) = some (d, m, y) := by
  have hday := day2_pad d (by omega) hd1
  have hmon := month2_pad m (by omega) hm1
  have hy4 := parseY4End_pad4 y hy
  simp [renderDMY, pad2, parseDMY, orTry, hday, parseSepMYEnd, parseMYEnd, hmon,
    parseSepY4End, hy4]

/-- `%Y-%m-%d` accepts its own rendering and returns exactly the
rendered date. -/
lemma parseYMD_render (y m d : Nat) (hy : y ≤ 9999)
    (hm1 : 1 ≤ m) (hm : m ≤ 12) (hd1 : 1 ≤ d) (hd : d ≤ 31) :
    parseYMD (renderYMD y m d) = some (d, m, y) := by
  have h1 := charToDigit_digitChar (y / 1000 % 10) (Nat.mod_lt _ (by norm_num))
  have h2 := charToDigit_digitChar (y / 100 % 10) (Nat.mod_lt _ (by norm_num))
  have h3 := charToDigit_digitChar (y / 10 % 10) (Nat.mod_lt _ (by norm_num))
  have h4 := charToDigit_digitChar (y % 10) (Nat.mod_lt _ (by norm_num))
  have hmon := month2_pad m (by omega) hm1
  have hday := day2_pad d (by omega) hd1
  simp [renderYMD, strftimeYMD, pad4, parseYMD, h1, h2, h3, h4, parseMDEnd, orTry,
    hmon, parseSepDEnd, parseDEnd, pad2, hday]
  omega

/-- A `D sep M sep Y` format rejects a rendering made with a different
(non-digit) separator. -/
lemma parseDMY_wrong_sep (psep rsep : Char) (y m d : Nat) (hd1 : 1 ≤ d) (hd : d ≤ 31)
    (hne : rsep ≠ psep) (hdig : ∀ k, k < 10 → digitChar k ≠ psep) :
    parseDMY psep (renderDMY rsep y m d) = none := by
  have hday := day2_pad d (by omega) hd1
  have h19 := digit19_digitChar (d / 10 % 10) (Nat.mod_lt _ (by norm_num))
  have h0 : digitChar (d % 10) ≠ psep := hdig _ (Nat.mod_lt _ (by norm_num))
  by_cases h1 : 1 ≤ d / 10 % 10
  · simp [renderDMY, pad2, parseDMY, orTry, hday, parseSepMYEnd, hne, h19, h1, h0]
  · simp [renderDMY, pad2, parseDMY, orTry, hday, parseSepMYEnd, hne, h19, h1]

/-- A `D sep M sep Y` format (dash or slash) rejects the `YYYY-MM-DD`
rendering: the separator is never found where expected. -/
lemma parseDMY_on_ymd (psep : Char) (y m d : Nat)
    (hdig : ∀ k, k < 10 → digitChar k ≠ psep) :
    parseDMY psep (renderYMD y m d) = none := by
  have hb1 : digitChar (y / 10 % 10) ≠ psep := hdig _ (Nat.mod_lt _ (by norm_num))
  have hb2 : digitChar (y / 100 % 10) ≠ psep := hdig _ (Nat.mod_lt _ (by norm_num))
  have h19 := digit19_digitChar (y / 1000 % 10) (Nat.mod_lt _ (by norm_num))
  cases hday : day2 (digitChar (y / 1000 % 10)) (digitChar (y / 100 % 10)) with
  | none =>
    by_cases h1 : 1 ≤ y / 1000 % 10 <;>
      simp [renderYMD, strftimeYMD, pad4, pad2, parseDMY, orTry, hday, parseSepMYEnd,
        h19, h1, hb2]
  | some v =>
    by_cases h1 : 1 ≤ y / 1000 % 10 <;>
      simp [renderYMD, strftimeYMD, pad4, pad2, parseDMY, orTry, hday, parseSepMYEnd,
        h19, h1, hb1, hb2]

/-- `%Y-%m-%d` rejects the `DD.MM.YYYY` rendering: its third character
is a dot where a year digit is required. -/
lemma parseYMD_on_dmy_dot (y m d : Nat) :
    parseYMD (renderDMY ('.') y m d) = none := by
  have hdot : charToDigit ('.') = none := by decide
  have h1 := charToDigit_digitChar (d / 10 % 10) (Nat.mod_lt _ (by norm_num))
  have h2 := charToDigit_digitChar (d % 10) (Nat.mod_lt _ (by norm_num))
  have h4 := charToDigit_digitChar (m / 10 % 10) (Nat.mod_lt _ (by norm_num))
  simp [renderDMY, pad2, parseYMD, hdot, h1, h2, h4]

/-- A valid calendar date has its components within the regex bounds. -/
lemma valid_bounds (y m d : Nat) (h : isValidDate y m d = true) :
    1 ≤ y ∧ y ≤ 9999 ∧ 1 ≤ m ∧ m ≤ 12 ∧ 1 ≤ d ∧ d ≤ 31 := by
  simp only [isValidDate, Bool.and_eq_true, decide_eq_true_eq] at h
  obtain ⟨⟨⟨⟨⟨h1, h2⟩, h3⟩, h4⟩, h5⟩, h6⟩ := h
  have hmx : daysInMonth y m ≤ 31 := by
    by_cases hm2 : m = 2
    · by_cases hl : isLeap y = true <;> simp [daysInMonth, hm2, hl]
    · by_cases hm4 : m = 4 ∨ m = 6 ∨ m = 9 ∨ m = 11 <;> simp [daysInMonth, hm2, hm4]
  exact ⟨h1, h2, h3, h4, h5, by omega⟩

/-- Claim C4: date normalization is consistent across the four accepted
formats — for every valid calendar date, parsing its rendering in any of
`DD-MM-YYYY`, `DD/MM/YYYY`, `YYYY-MM-DD`, `DD.MM.YYYY` yields the same
canonical `YYYY-MM-DD` string; and every input string matched by none of
the four formats yields an absent date (and, the model being total, no
exception). -/
theorem claim_C4 :
    (∀ y m d, isValidDate y m d = true →
      _extract_date (some (renderDMY ('-') y m d)) = some (strftimeYMD y m d) ∧
      _extract_date (some (renderDMY ('/') y m d)) = some (strftimeYMD y m d) ∧
      _extract_date (some (renderYMD y m d)) = some (strftimeYMD y m d) ∧
      _extract_date (some (renderDMY ('.') y m d)) = some (strftimeYMD y m d)) ∧
    (∀ cs : List Char, (∀ f, f ∈ dateFormats → strptime f cs = none) →
      _extract_date (some cs) = none) := by
  constructor
  · intro y m d hval
    obtain ⟨hy1, hy2, hm1, hm2, hd1, hd31⟩ := valid_bounds y m d hval
    refine ⟨?_, ?_, ?_, ?_⟩
    · have hp1 := parseDMY_render ('-') y m d hy2 hm1 hm2 hd1 hd31
      have hne : renderDMY ('-') y m d ≠ [] := by simp [renderDMY, pad2]
      simp [_extract_date, hne, tryDateFormats, dateFormats, strptime, strptimeMatch,
        hp1, hval]
    · have hf1 := parseDMY_wrong_sep ('-') ('/') y m d hd1 hd31 (by decide)
        digitChar_ne_dash
      have hp2 := parseDMY_render ('/') y m d hy2 hm1 hm2 hd1 hd31
      have hne : renderDMY ('/') y m d ≠ [] := by simp [renderDMY, pad2]
      simp [_extract_date, hne, tryDateFormats, dateFormats, strptime, strptimeMatch,
        hf1, hp2, hval]
    · have hf1 := parseDMY_on_ymd ('-') y m d digitChar_ne_dash
      have hf2 := parseDMY_on_ymd ('/') y m d digitChar_ne_slash
      have hp3 := parseYMD_render y m d hy2 hm1 hm2 hd1 hd31
      have hne : renderYMD y m d ≠ [] := by simp [renderYMD, strftimeYMD, pad4]
      simp [_extract_date, hne, tryDateFormats, dateFormats, strptime, strptimeMatch,
        hf1, hf2, hp3, hval]
    · have hf1 := parseDMY_wrong_sep ('-') ('.') y m d hd1 hd31 (by decide)
        digitChar_ne_dash
      have hf2 := parseDMY_wrong_sep ('/') ('.') y m d hd1 hd31 (by decide)
        digitChar_ne_slash
      have hf3 := parseYMD_on_dmy_dot y m d
      have hp4 := parseDMY_render ('.') y m d hy2 hm1 hm2 hd1 hd31
      have hne : renderDMY ('.') y m d ≠ [] := by simp [renderDMY, pad2]
      simp [_extract_date, hne, tryDateFormats, dateFormats, strptime, strptimeMatch,
        hf1, hf2, hf3, hp4, hval]
  · intro cs h
    by_cases hc : cs = []
    · simp [_extract_date, hc]
    · have h1 := h (.dmy ('-')) (by simp [dateFormats])
      have h2 := h (.dmy ('/')) (by simp [dateFormats])
      have h3 := h .ymd (by simp [dateFormats])
      have h4 := h (.dmy ('.')) (by simp [dateFormats])
      simp [_extract_date, hc, tryDateFormats, dateFormats, h1, h2, h3, h4]

/-- Witness for C4: 15 March 2022 normalizes identically from its
dash rendering, and `"foo"` matches no format and yields no date. -/
theorem claim_C4_witness :
    (isValidDate 2022 3 15 = true ∧
      _extract_date (some (renderDMY ('-') 2022 3 15)) = some (strftimeYMD 2022 3 15)) ∧
    ((∀ f, f ∈ dateFormats → strptime f ("foo".toList) = none) ∧
      _extract_date (some ("foo".toList)) = none) :=
  ⟨⟨by decide, (claim_C4.1 2022 3 15 (by decide)).1⟩,
    ⟨by decide, claim_C4.2 ("foo".toList) (by decide)⟩⟩

end CourtFetcher
